import Mathlib

/-!
# Verification of the plane-change core of fabric.js

Shallow embedding of `src/util/misc/planeChange.ts` (functions
`calcPlaneChangeMatrix`, `sendPointToPlane`, `transformPointRelativeToCanvas`,
`sendObjectToPlane`) together with the matrix-algebra contract it depends on.
JavaScript numbers are modelled as rationals; the throwing paths of
`transformPointRelativeToCanvas` are modelled with `Except`; the in-place
mutation performed by `sendObjectToPlane` is modelled by explicit state
passing (the function returns the updated node).
-/

/-- A 2D affine transform matrix `TMat2D = [m0, m1, m2, m3, m4, m5]`,
read as the matrix `[[m0, m2, m4], [m1, m3, m5], [0, 0, 1]]`. -/
structure TMat2D where
  m0 : ℚ
  m1 : ℚ
  m2 : ℚ
  m3 : ℚ
  m4 : ℚ
  m5 : ℚ
deriving DecidableEq, Repr

/-- The identity matrix `iMatrix = [1, 0, 0, 1, 0, 0]` from `constants.ts`. -/
def iMatrix : TMat2D := ⟨1, 0, 0, 1, 0, 0⟩

/-- Modelled from the spec: `multiply(A, B) -> A·B` of the Matrix Algebra
dependency (§4.1, `multiplyTransformMatrices` of `util/misc/matrix.ts`,
not included under `src/`): ordinary composition of the two affine maps,
`A` applied after `B`. -/
def multiplyTransformMatrices (a b : TMat2D) : TMat2D :=
  ⟨a.m0 * b.m0 + a.m2 * b.m1,
   a.m1 * b.m0 + a.m3 * b.m1,
   a.m0 * b.m2 + a.m2 * b.m3,
   a.m1 * b.m2 + a.m3 * b.m3,
   a.m0 * b.m4 + a.m2 * b.m5 + a.m4,
   a.m1 * b.m4 + a.m3 * b.m5 + a.m5⟩

/-- Determinant of the linear part of an affine matrix. -/
def TMat2D.det (t : TMat2D) : ℚ := t.m0 * t.m3 - t.m1 * t.m2

/-- Modelled from the spec: `invert(M) -> M⁻¹` of the Matrix Algebra
dependency (§4.1, `invertTransform` of `util/misc/matrix.ts`, not included
under `src/`): the affine inverse, undefined (here: junk, via division by
zero) on a singular matrix, which the spec declares a caller error. -/
def invertTransform (t : TMat2D) : TMat2D :=
  let a : ℚ := 1 / t.det
  ⟨a * t.m3, -a * t.m1, -a * t.m2, a * t.m0,
   -(a * t.m3 * t.m4 + -a * t.m2 * t.m5),
   -(-a * t.m1 * t.m4 + a * t.m0 * t.m5)⟩

/-- A 2D point. -/
structure Point where
  x : ℚ
  y : ℚ
deriving DecidableEq, Repr

/-- Modelled from the spec: applying an affine matrix to a point
(`Point.transform` of `point.class.ts`, not included under `src/`). -/
def Point.transform (p : Point) (t : TMat2D) : Point :=
  ⟨t.m0 * p.x + t.m2 * p.y + t.m4, t.m1 * p.x + t.m3 * p.y + t.m5⟩

/-- `calcPlaneChangeMatrix(from = iMatrix, to = iMatrix) = multiply(invert(to), from)`
(`planeChange.ts`, lines 21–24). The JavaScript default arguments are
modelled by `calcPlaneChangeMatrixOpt` below. -/
def calcPlaneChangeMatrix (fromM toM : TMat2D) : TMat2D :=
  multiplyTransformMatrices (invertTransform toM) fromM

/-- `calcPlaneChangeMatrix` with the JavaScript optional arguments made
explicit: an absent argument defaults to `iMatrix`. -/
def calcPlaneChangeMatrixOpt (fromM toM : Option TMat2D) : TMat2D :=
  calcPlaneChangeMatrix (fromM.getD iMatrix) (toM.getD iMatrix)

/-- `sendPointToPlane(point, from = iMatrix, to = iMatrix)`
(`planeChange.ts`, lines 44–48). -/
def sendPointToPlane (point : Point) (fromM toM : Option TMat2D) : Point :=
  point.transform (calcPlaneChangeMatrixOpt fromM toM)

/-- The root/viewport context of §4.3: a `StaticCanvas` exposing its
`viewportTransform`. -/
structure StaticCanvas where
  viewportTransform : TMat2D
deriving DecidableEq, Repr

/-- The two legal values of the `ObjectRelation` const enum are the strings
`"sibling"` and `"child"`; the relation argument is modelled as a string so
that the invalid-argument path of the source (reachable from untyped
JavaScript callers) is representable. -/
def validRelation (r : String) : Prop := r = "child" ∨ r = "sibling"

instance (r : String) : Decidable (validRelation r) := by
  unfold validRelation; infer_instance

/-- `transformPointRelativeToCanvas(point, canvas, relationBefore, relationAfter)`
(`planeChange.ts`, lines 69–93). The two `throw new Error(...)` statements
are modelled as `Except.error` carrying the exact message string. -/
def transformPointRelativeToCanvas (point : Point) (canvas : StaticCanvas)
    (relationBefore relationAfter : String) : Except String Point :=
  if relationBefore ≠ "child" ∧ relationBefore ≠ "sibling" then
    .error ("fabric.js: received bad argument " ++ relationBefore)
  else if relationAfter ≠ "child" ∧ relationAfter ≠ "sibling" then
    .error ("fabric.js: received bad argument " ++ relationAfter)
  else if relationBefore = relationAfter then
    .ok point
  else
    .ok (point.transform
      (if relationAfter = "child" then invertTransform canvas.viewportTransform
       else canvas.viewportTransform))

/-- A plane-owning scene node as seen by `sendObjectToPlane`: the source only
reads its cumulative transform (`calcTransformMatrix()`) and its cumulative
angle from the root (`getTotalAngle()`). -/
structure PlaneNode where
  cumTransform : TMat2D
  totalAngle : ℚ
deriving DecidableEq, Repr

/-- The scene node being moved: its own local matrix (`calcOwnMatrix()`),
its `angle` field, and its optional parent `group`. -/
structure FabricObject where
  ownMatrix : TMat2D
  angle : ℚ
  group : Option PlaneNode
deriving DecidableEq, Repr

/-- Modelled from the spec: `applyTransformToObject(object, matrix, angle)`
(`util/misc/objectTransforms.ts`, not included under `src/`): the node's
mutable decomposition (position, scale, skew) is set from the given matrix
and the given angle is assigned, mutating the node in place (§4.4, §6). At
the granularity of this embedding — the decomposition is represented by the
local matrix it reassembles to — this replaces the node's own matrix and
angle and touches nothing else. -/
def applyTransformToObject (object : FabricObject) (m : TMat2D) (angle : ℚ) :
    FabricObject :=
  { object with ownMatrix := m, angle := angle }

/-- The result of `sendObjectToPlane`: the updated node (standing for the
in-place mutation) together with the returned `{ transform, angle }`. -/
structure SendResult where
  node : FabricObject
  transform : TMat2D
  angle : ℚ
deriving DecidableEq, Repr

/-- The three-argument call `sendObjectToPlane(object, from, to)`
(`planeChange.ts`, lines 141–163, branch `arguments.length === 3`):
both planes supplied by the caller, `undefined` meaning the root plane. -/
def sendObjectToPlane3 (object : FabricObject) (fromN toN : Option PlaneNode) :
    SendResult :=
  let t := calcPlaneChangeMatrixOpt (fromN.map PlaneNode.cumTransform)
    (toN.map PlaneNode.cumTransform)
  let angle := object.angle - ((fromN.map PlaneNode.totalAngle).getD 0)
    + ((toN.map PlaneNode.totalAngle).getD 0)
  { node := applyTransformToObject object
      (multiplyTransformMatrices t object.ownMatrix) angle,
    transform := t,
    angle := angle }

/-- The two-argument call `sendObjectToPlane(object, to)` (`planeChange.ts`,
lines 141–163, branch `arguments.length !== 3`): `from` is taken from the
node's current parent group. -/
def sendObjectToPlane2 (object : FabricObject) (toN : Option PlaneNode) :
    SendResult :=
  sendObjectToPlane3 object object.group toN

/-- The world visible to one `sendObjectToPlane` call: the mutated node and
the two (possibly absent) plane nodes, used to state the frame condition. -/
structure World where
  obj : FabricObject
  fromN : Option PlaneNode
  toN : Option PlaneNode
deriving DecidableEq, Repr

/-- One three-argument `sendObjectToPlane` call as a step on the world:
the source writes only through `applyTransformToObject(object, ...)`, so the
step rebinds the node and leaves the two plane nodes as they were. -/
def sendObjectToPlaneStep (w : World) : World × TMat2D × ℚ :=
  let r := sendObjectToPlane3 w.obj w.fromN w.toN
  (⟨r.node, w.fromN, w.toN⟩, r.transform, r.angle)

/-- The cumulative transform of an optional plane node, identity if absent. -/
def cumT (o : Option PlaneNode) : TMat2D :=
  (o.map PlaneNode.cumTransform).getD iMatrix

/-! ## Matrix algebra lemmas -/

theorem TMat2D.ext_iff_mk {a b c d e f g h i j k l : ℚ} :
    (⟨a, b, c, d, e, f⟩ : TMat2D) = ⟨g, h, i, j, k, l⟩ ↔
      a = g ∧ b = h ∧ c = i ∧ d = j ∧ e = k ∧ f = l := by
  constructor
  · intro heq; injection heq with h1 h2 h3 h4 h5 h6; exact ⟨h1, h2, h3, h4, h5, h6⟩
  · rintro ⟨rfl, rfl, rfl, rfl, rfl, rfl⟩; rfl

theorem multiply_assoc (a b c : TMat2D) :
    multiplyTransformMatrices (multiplyTransformMatrices a b) c =
      multiplyTransformMatrices a (multiplyTransformMatrices b c) := by
  cases a; cases b; cases c
  simp only [multiplyTransformMatrices, TMat2D.ext_iff_mk]
  refine ⟨?_, ?_, ?_, ?_, ?_, ?_⟩ <;> ring

theorem multiply_iMatrix_left (m : TMat2D) :
    multiplyTransformMatrices iMatrix m = m := by
  cases m
  simp only [multiplyTransformMatrices, iMatrix, TMat2D.ext_iff_mk]
  refine ⟨?_, ?_, ?_, ?_, ?_, ?_⟩ <;> ring

theorem multiply_iMatrix_right (m : TMat2D) :
    multiplyTransformMatrices m iMatrix = m := by
  cases m
  simp only [multiplyTransformMatrices, iMatrix, TMat2D.ext_iff_mk]
  refine ⟨?_, ?_, ?_, ?_, ?_, ?_⟩ <;> ring

theorem invert_iMatrix : invertTransform iMatrix = iMatrix := by
  simp only [invertTransform, iMatrix, TMat2D.det, TMat2D.ext_iff_mk]
  norm_num

theorem invert_multiply_self (t : TMat2D) (h : t.det ≠ 0) :
    multiplyTransformMatrices (invertTransform t) t = iMatrix := by
  obtain ⟨m0, m1, m2, m3, m4, m5⟩ := t
  simp only [TMat2D.det] at h
  simp only [multiplyTransformMatrices, invertTransform, TMat2D.det, iMatrix,
    TMat2D.ext_iff_mk]
  refine ⟨?_, ?_, ?_, ?_, ?_, ?_⟩ <;> field_simp <;> ring

theorem multiply_invert_self (t : TMat2D) (h : t.det ≠ 0) :
    multiplyTransformMatrices t (invertTransform t) = iMatrix := by
  obtain ⟨m0, m1, m2, m3, m4, m5⟩ := t
  simp only [TMat2D.det] at h
  simp only [multiplyTransformMatrices, invertTransform, TMat2D.det, iMatrix,
    TMat2D.ext_iff_mk]
  refine ⟨?_, ?_, ?_, ?_, ?_, ?_⟩ <;> field_simp <;> ring

/-! ## Claim theorems -/

/-- C2: for every pair of matrices `from` and `to`,
`calcPlaneChangeMatrix(from, to)` equals `multiply(invert(to), from)`, and
with both arguments omitted (defaulting to the identity) the result is the
identity matrix. -/
theorem calcPlaneChangeMatrix_formula_and_default :
    (∀ a b : TMat2D,
      calcPlaneChangeMatrix a b =
        multiplyTransformMatrices (invertTransform b) a) ∧
    calcPlaneChangeMatrixOpt none none = iMatrix := by
  refine ⟨fun a b => rfl, ?_⟩
  show calcPlaneChangeMatrix iMatrix iMatrix = iMatrix
  rw [calcPlaneChangeMatrix, invert_iMatrix, multiply_iMatrix_left]

/-- C3: for every invertible matrix `X` (nonzero determinant),
`calcPlaneChangeMatrix(X, X)` is the identity matrix. -/
theorem calcPlaneChangeMatrix_self (X : TMat2D) (h : X.det ≠ 0) :
    calcPlaneChangeMatrix X X = iMatrix :=
  invert_multiply_self X h

/-- Witness for C3 at the concrete invertible matrix `[2, 0, 0, 3, 5, 7]`. -/
theorem calcPlaneChangeMatrix_self_witness :
    (⟨2, 0, 0, 3, 5, 7⟩ : TMat2D).det ≠ 0 ∧
      calcPlaneChangeMatrix ⟨2, 0, 0, 3, 5, 7⟩ ⟨2, 0, 0, 3, 5, 7⟩ = iMatrix :=
  ⟨by norm_num [TMat2D.det],
   calcPlaneChangeMatrix_self ⟨2, 0, 0, 3, 5, 7⟩ (by norm_num [TMat2D.det])⟩

/-- C8: for every pair of invertible matrices `A` and `B`, composing
`calcPlaneChangeMatrix(A, B)` with `calcPlaneChangeMatrix(B, A)` yields the
identity matrix. -/
theorem calcPlaneChangeMatrix_inverse_consistency (A B : TMat2D)
    (hA : A.det ≠ 0) (hB : B.det ≠ 0) :
    multiplyTransformMatrices (calcPlaneChangeMatrix A B)
      (calcPlaneChangeMatrix B A) = iMatrix := by
  unfold calcPlaneChangeMatrix
  rw [multiply_assoc, ← multiply_assoc A, multiply_invert_self A hA,
    multiply_iMatrix_left, invert_multiply_self B hB]

/-- Witness for C8 at the concrete invertible matrices `[2, 0, 0, 3, 5, 7]`
and `[1, 0, 0, 1, 4, 9]`. -/
theorem calcPlaneChangeMatrix_inverse_consistency_witness :
    (⟨2, 0, 0, 3, 5, 7⟩ : TMat2D).det ≠ 0 ∧
    (⟨1, 0, 0, 1, 4, 9⟩ : TMat2D).det ≠ 0 ∧
    multiplyTransformMatrices
      (calcPlaneChangeMatrix ⟨2, 0, 0, 3, 5, 7⟩ ⟨1, 0, 0, 1, 4, 9⟩)
      (calcPlaneChangeMatrix ⟨1, 0, 0, 1, 4, 9⟩ ⟨2, 0, 0, 3, 5, 7⟩) = iMatrix :=
  ⟨by norm_num [TMat2D.det], by norm_num [TMat2D.det],
   calcPlaneChangeMatrix_inverse_consistency _ _
     (by norm_num [TMat2D.det]) (by norm_num [TMat2D.det])⟩

/-- C1: `sendObjectToPlane` computes the plane-change matrix `M` of the two
cumulative transforms (identity for an absent side), the new absolute angle
`node.angle - from.cumulativeAngle + to.cumulativeAngle` (absent angles
defaulting to 0), replaces the node's local matrix with
`multiply(M, node.ownLocalMatrix)` leaving its other state alone, and returns
exactly `M` together with the new angle; the two-argument form takes `from`
from the node's current parent group. -/
theorem sendObjectToPlane_algorithm (object : FabricObject)
    (fromN toN : Option PlaneNode) :
    sendObjectToPlane3 object fromN toN =
      { node := { object with
            ownMatrix := multiplyTransformMatrices
              (calcPlaneChangeMatrix (cumT fromN) (cumT toN)) object.ownMatrix,
            angle := object.angle - ((fromN.map PlaneNode.totalAngle).getD 0)
              + ((toN.map PlaneNode.totalAngle).getD 0) },
        transform := calcPlaneChangeMatrix (cumT fromN) (cumT toN),
        angle := object.angle - ((fromN.map PlaneNode.totalAngle).getD 0)
          + ((toN.map PlaneNode.totalAngle).getD 0) } ∧
    sendObjectToPlane2 object toN = sendObjectToPlane3 object object.group toN :=
  ⟨rfl, rfl⟩

/-- C4: visual invariance under reparenting — after
`sendObjectToPlane(node, oldParent, newParent)` with invertible cumulative
transforms, the destination's cumulative transform composed with the node's
new local matrix equals the source's cumulative transform composed with the
old local matrix. -/
theorem sendObjectToPlane_visual_invariance (object : FabricObject)
    (fromN toN : Option PlaneNode)
    (hf : (cumT fromN).det ≠ 0) (ht : (cumT toN).det ≠ 0) :
    multiplyTransformMatrices (cumT toN)
        ((sendObjectToPlane3 object fromN toN).node.ownMatrix) =
      multiplyTransformMatrices (cumT fromN) object.ownMatrix := by
  show multiplyTransformMatrices (cumT toN)
      (multiplyTransformMatrices
        (multiplyTransformMatrices (invertTransform (cumT toN)) (cumT fromN))
        object.ownMatrix) = _
  rw [← multiply_assoc, ← multiply_assoc, multiply_invert_self _ ht,
    multiply_iMatrix_left]

/-- Witness for C4: a node with local matrix `[1, 0, 0, 1, 50, 50]` moved from
a parent translating by `(30, 30)` to the root plane. -/
theorem sendObjectToPlane_visual_invariance_witness :
    (cumT (some ⟨⟨1, 0, 0, 1, 30, 30⟩, 0⟩)).det ≠ 0 ∧
    (cumT none).det ≠ 0 ∧
    multiplyTransformMatrices (cumT none)
        ((sendObjectToPlane3 ⟨⟨1, 0, 0, 1, 50, 50⟩, 0, none⟩
            (some ⟨⟨1, 0, 0, 1, 30, 30⟩, 0⟩) none).node.ownMatrix) =
      multiplyTransformMatrices (cumT (some ⟨⟨1, 0, 0, 1, 30, 30⟩, 0⟩))
        ⟨1, 0, 0, 1, 50, 50⟩ :=
  ⟨by norm_num [cumT, TMat2D.det],
   by norm_num [cumT, TMat2D.det, iMatrix],
   sendObjectToPlane_visual_invariance _ _ _
     (by norm_num [cumT, TMat2D.det])
     (by norm_num [cumT, TMat2D.det, iMatrix])⟩

/-- C9: `sendObjectToPlane` rebinds only the moved node's local transform
fields: the `from` and `to` nodes of the call are untouched and the node's
parent-group reference is unchanged. -/
theorem sendObjectToPlane_frame (w : World) :
    (sendObjectToPlaneStep w).1.fromN = w.fromN ∧
    (sendObjectToPlaneStep w).1.toN = w.toN ∧
    (sendObjectToPlaneStep w).1.obj.group = w.obj.group :=
  ⟨rfl, rfl, rfl⟩

/-- C10: the overloads of `sendObjectToPlane` are disambiguated by argument
count, not value: the two-argument form always takes the source plane from
the node's parent group, so `sendObjectToPlane(obj, undefined)` and
`sendObjectToPlane(obj, undefined, undefined)` produce different results
whenever `obj` has a parent group with a non-identity cumulative transform. -/
theorem sendObjectToPlane_overload_disambiguation (object : FabricObject)
    (g : PlaneNode) (hg : object.group = some g)
    (hni : g.cumTransform ≠ iMatrix) :
    (∀ toN, sendObjectToPlane2 object toN =
      sendObjectToPlane3 object object.group toN) ∧
    sendObjectToPlane2 object none ≠ sendObjectToPlane3 object none none := by
  refine ⟨fun toN => rfl, fun h => ?_⟩
  have h2 : (sendObjectToPlane2 object none).transform = g.cumTransform := by
    show calcPlaneChangeMatrixOpt (object.group.map PlaneNode.cumTransform)
      (Option.map PlaneNode.cumTransform none) = g.cumTransform
    rw [hg]
    show calcPlaneChangeMatrix g.cumTransform iMatrix = _
    rw [calcPlaneChangeMatrix, invert_iMatrix, multiply_iMatrix_left]
  have h3 : (sendObjectToPlane3 object none none).transform = iMatrix := by
    show calcPlaneChangeMatrix iMatrix iMatrix = iMatrix
    rw [calcPlaneChangeMatrix, invert_iMatrix, multiply_iMatrix_left]
  exact hni (h2 ▸ h3 ▸ congrArg SendResult.transform h)

/-- Witness for C10: a node whose parent group scales by 2 horizontally. -/
theorem sendObjectToPlane_overload_disambiguation_witness :
    (⟨iMatrix, 0, some ⟨⟨2, 0, 0, 1, 0, 0⟩, 0⟩⟩ : FabricObject).group =
      some ⟨⟨2, 0, 0, 1, 0, 0⟩, 0⟩ ∧
    (⟨⟨2, 0, 0, 1, 0, 0⟩, 0⟩ : PlaneNode).cumTransform ≠ iMatrix ∧
    ((∀ toN, sendObjectToPlane2 ⟨iMatrix, 0, some ⟨⟨2, 0, 0, 1, 0, 0⟩, 0⟩⟩ toN =
        sendObjectToPlane3 ⟨iMatrix, 0, some ⟨⟨2, 0, 0, 1, 0, 0⟩, 0⟩⟩
          (⟨iMatrix, 0, some ⟨⟨2, 0, 0, 1, 0, 0⟩, 0⟩⟩ : FabricObject).group toN) ∧
      sendObjectToPlane2 ⟨iMatrix, 0, some ⟨⟨2, 0, 0, 1, 0, 0⟩, 0⟩⟩ none ≠
        sendObjectToPlane3 ⟨iMatrix, 0, some ⟨⟨2, 0, 0, 1, 0, 0⟩, 0⟩⟩ none none) :=
  ⟨rfl,
   by simp only [iMatrix, ne_eq, TMat2D.ext_iff_mk]; norm_num,
   sendObjectToPlane_overload_disambiguation _ _ rfl
     (by simp only [iMatrix, ne_eq, TMat2D.ext_iff_mk]; norm_num)⟩

/-- C5: if either relation argument is not one of `child`/`sibling`,
`transformPointRelativeToCanvas` fails with an invalid-argument error whose
message carries the offending value and performs no transform. -/
theorem transformPointRelativeToCanvas_invalid (p : Point) (c : StaticCanvas)
    (rb ra : String) (h : ¬(validRelation rb ∧ validRelation ra)) :
    ∃ r, ¬validRelation r ∧ (r = rb ∨ r = ra) ∧
      transformPointRelativeToCanvas p c rb ra =
        .error ("fabric.js: received bad argument " ++ r) := by
  by_cases hb : validRelation rb
  · have ha : ¬validRelation ra := fun h2 => h ⟨hb, h2⟩
    refine ⟨ra, ha, Or.inr rfl, ?_⟩
    unfold transformPointRelativeToCanvas
    rw [if_neg, if_pos]
    · unfold validRelation at ha; tauto
    · unfold validRelation at hb; tauto
  · refine ⟨rb, hb, Or.inl rfl, ?_⟩
    unfold transformPointRelativeToCanvas
    rw [if_pos]
    unfold validRelation at hb; tauto

/-- Witness for C5 with the invalid relation string `"bogus"`. -/
theorem transformPointRelativeToCanvas_invalid_witness :
    ¬(validRelation "child" ∧ validRelation "bogus") ∧
    ∃ r, ¬validRelation r ∧ (r = "child" ∨ r = "bogus") ∧
      transformPointRelativeToCanvas ⟨1, 2⟩ ⟨iMatrix⟩ "child" "bogus" =
        .error ("fabric.js: received bad argument " ++ r) :=
  ⟨by simp [validRelation],
   transformPointRelativeToCanvas_invalid ⟨1, 2⟩ ⟨iMatrix⟩ "child" "bogus"
     (by simp [validRelation])⟩

/-- C6: for a valid relation `R`, `transformPointRelativeToCanvas(p, root, R, R)`
returns exactly the point it was given. -/
theorem transformPointRelativeToCanvas_noop (p : Point) (c : StaticCanvas)
    (R : String) (h : validRelation R) :
    transformPointRelativeToCanvas p c R R = .ok p := by
  rcases h with h | h <;> subst h <;> rfl

/-- Witness for C6 at `R = "child"` and `p = (3, 4)`. -/
theorem transformPointRelativeToCanvas_noop_witness :
    validRelation "child" ∧
    transformPointRelativeToCanvas ⟨3, 4⟩ ⟨⟨2, 0, 0, 2, 1, 1⟩⟩ "child" "child" =
      .ok ⟨3, 4⟩ :=
  ⟨Or.inl rfl,
   transformPointRelativeToCanvas_noop ⟨3, 4⟩ ⟨⟨2, 0, 0, 2, 1, 1⟩⟩ "child"
     (Or.inl rfl)⟩

/-- C7: with valid, differing relations, transitioning sibling to child
applies the inverse of the root's `viewportTransform`, and child to sibling
applies `viewportTransform` directly. -/
theorem transformPointRelativeToCanvas_cross (p : Point) (c : StaticCanvas) :
    transformPointRelativeToCanvas p c "sibling" "child" =
      .ok (p.transform (invertTransform c.viewportTransform)) ∧
    transformPointRelativeToCanvas p c "child" "sibling" =
      .ok (p.transform c.viewportTransform) :=
  ⟨rfl, rfl⟩
